import Mathlib

/-!
Verification of the batch-generation core of `LanguageModellingScripts`
(`lstm_with_wordpieces/lm_keras_generators.py` and `lstm_with_wordpieces/03_train.py`).

The Python code is shallowly embedded: token-id rows become `List Int`,
the generator object becomes a structure with explicit state passing, the
infinite generator loops become step functions (one batch emission per step)
plus an explicit iteration counter, and the fallible inner read loop of the
on-disk strategy takes a fuel parameter and returns `Option`.
-/

namespace LMScripts

/-- Padding direction flag of `tf.keras.preprocessing.sequence.pad_sequences`
(`padding=` / `truncating=` keyword values `"pre"` and `"post"`). -/
inductive PadDir where
  | pre
  | post
deriving DecidableEq

deriving instance DecidableEq for Except

/-- One row of `tf.keras.preprocessing.sequence.pad_sequences`: first truncate
the row to `maxlen` (keeping the tail for `truncating="pre"`, the head for
`truncating="post"`), then pad with `value` on the chosen side up to `maxlen`. -/
def pad_sequences_row (padding : PadDir) (truncating : PadDir) (maxlen : Nat)
    (value : Int) (row : List Int) : List Int :=
  let r := match truncating with
    | PadDir.pre => row.drop (row.length - maxlen)
    | PadDir.post => row.take maxlen
  match padding with
  | PadDir.post => r ++ List.replicate (maxlen - r.length) value
  | PadDir.pre => List.replicate (maxlen - r.length) value ++ r

/-- The end-of-sequence id hardcoded by the truncation override
(`pieces[-1] = 3` in `prepare_sequences`, `line[max_seq_len-1] = 3` in
`generate_from_disk`). -/
def EOS_ID : Int := 3

/-- State of a `KerasLMSentenceLevelBatchGenerator` instance
(`lm_keras_generators.py`). The in-memory table `x_sequences` is the
slurped-mode payload; in disk mode the payload is a file, modelled separately
by `DiskFile` below. -/
structure KerasLMSentenceLevelBatchGenerator where
  x_sequences : List (List Int)
  explicit_seq_len : Nat
  no_slurp : Bool
  max_seq_len : Nat
  min_seq_len : Nat
  num_shifted_sentences : Nat
  current_idx : Nat
  skip_step : Nat
  pad_idx_or_symbol : Int
deriving DecidableEq

/-- Error kinds of the spec's error taxonomy (§7). The source raises a plain
`ValueError` for the invalid parameter combination; the spec calls that kind
`ConfigError`. -/
inductive GenError where
  | configError : String → GenError
deriving DecidableEq

/-- Embedding of `KerasLMSentenceLevelBatchGenerator.__init__`: fails iff
`skip_step > max_seq_len` (for both strategies — the check precedes any use of
`no_slurp`), otherwise produces the initial state with `current_idx = 0`.
`explicit_x_seq_len or len(x_sequences)` uses Python truthiness: an absent or
zero `explicit_x_seq_len` falls back to the table length. -/
def KerasLMSentenceLevelBatchGenerator.init (x_sequences : List (List Int))
    (max_seq_len min_seq_len num_shifted_sentences : Nat) (pad_idx_or_symbol : Int)
    (skip_step : Nat) (explicit_x_seq_len : Option Nat) (no_slurp : Bool) :
    Except GenError KerasLMSentenceLevelBatchGenerator :=
  if max_seq_len < skip_step then
    Except.error (GenError.configError
      "Skip step needs to be greater than or equal to the max sequence length")
  else
    Except.ok
      { x_sequences := x_sequences
        explicit_seq_len :=
          match explicit_x_seq_len with
          | some v => if v = 0 then x_sequences.length else v
          | none => x_sequences.length
        no_slurp := no_slurp
        max_seq_len := max_seq_len
        min_seq_len := min_seq_len
        num_shifted_sentences := num_shifted_sentences
        current_idx := 0
        skip_step := skip_step
        pad_idx_or_symbol := pad_idx_or_symbol }

/-- `get_num_sliding_windows`: `max_seq_len // skip_step`. -/
def KerasLMSentenceLevelBatchGenerator.get_num_sliding_windows
    (g : KerasLMSentenceLevelBatchGenerator) : Nat :=
  g.max_seq_len / g.skip_step

/-- `get_batch_size`: `num_shifted_sentences * get_num_sliding_windows()`. -/
def KerasLMSentenceLevelBatchGenerator.get_batch_size
    (g : KerasLMSentenceLevelBatchGenerator) : Nat :=
  g.num_shifted_sentences * g.get_num_sliding_windows

/-- `get_epoch_size`: `explicit_seq_len * get_num_sliding_windows()`. -/
def KerasLMSentenceLevelBatchGenerator.get_epoch_size
    (g : KerasLMSentenceLevelBatchGenerator) : Nat :=
  g.explicit_seq_len * g.get_num_sliding_windows

/-- `get_steps_per_epoch`: `get_epoch_size() // get_batch_size()`. -/
def KerasLMSentenceLevelBatchGenerator.get_steps_per_epoch
    (g : KerasLMSentenceLevelBatchGenerator) : Nat :=
  g.get_epoch_size / g.get_batch_size

/-- The windowing-and-repadding loop shared verbatim by `generate_slurped`
(lines 105-111) and `generate_from_disk` (lines 139-144): for each
`window_idx` below `max_seq_len // skip_step`, append every block row sliced
from column `window_idx * skip_step` to `x` and the same slice with its first
column removed to `y`; finally re-pad every accumulated row to `max_seq_len`
columns with the literal value 1, post-padding (keras truncation default
`"pre"`, irrelevant here since all rows are already at most `max_seq_len`
long). -/
def windowBatch (max_seq_len skip_step : Nat) (block : List (List Int)) :
    List (List Int) × List (List Int) :=
  let num_sliding_windows := max_seq_len / skip_step
  let x := (List.range num_sliding_windows).flatMap
    (fun window_idx => block.map (fun r => r.drop (window_idx * skip_step)))
  let y := (List.range num_sliding_windows).flatMap
    (fun window_idx => block.map (fun r => (r.drop (window_idx * skip_step)).drop 1))
  (x.map (pad_sequences_row PadDir.post PadDir.pre max_seq_len 1),
   y.map (pad_sequences_row PadDir.post PadDir.pre max_seq_len 1))

/-- One iteration of the infinite loop of `generate_slurped` (lines 98-112):
wrap the cursor when `current_idx + num_shifted_sentences >= explicit_seq_len`,
take the block `x_sequences[current_idx : current_idx+num_shifted_sentences]`,
advance the cursor by `num_shifted_sentences`, and yield the windowed batch.
Returns the successor state together with the emitted `(x, y)` pair. -/
def generate_slurped_step (g : KerasLMSentenceLevelBatchGenerator) :
    KerasLMSentenceLevelBatchGenerator × (List (List Int) × List (List Int)) :=
  let cur := if g.explicit_seq_len ≤ g.current_idx + g.num_shifted_sentences
    then 0 else g.current_idx
  let block := (g.x_sequences.drop cur).take g.num_shifted_sentences
  ({ g with current_idx := cur + g.num_shifted_sentences },
   windowBatch g.max_seq_len g.skip_step block)

/-- State of the slurped generator after `k` batch emissions. -/
def generate_slurped_iter (g : KerasLMSentenceLevelBatchGenerator) :
    Nat → KerasLMSentenceLevelBatchGenerator
  | 0 => g
  | k + 1 => (generate_slurped_step (generate_slurped_iter g k)).1

/-- The `k`-th batch (0-indexed) emitted by `generate_slurped`. -/
def generate_slurped_nth (g : KerasLMSentenceLevelBatchGenerator) (k : Nat) :
    List (List Int) × List (List Int) :=
  (generate_slurped_step (generate_slurped_iter g k)).2

/-- The pre-tokenized corpus file of the on-disk strategy: `lines` are the
parsed integer rows in file order and `lineBytes` the byte length of each raw
line (newline included). -/
structure DiskFile where
  lines : List (List Int)
  lineBytes : List Nat
deriving DecidableEq

/-- Byte size of the file (`os.path.getsize`). -/
def DiskFile.fsize (f : DiskFile) : Nat := f.lineBytes.sum

/-- Byte position of the text read cursor (`fd.tell()`) after `pos` lines have
been consumed: the total size of the consumed lines. For a UTF-8 file of
ASCII digit lines, `TextIOWrapper.tell` reconstructs exactly this byte
offset. -/
def DiskFile.tell (f : DiskFile) (pos : Nat) : Nat := (f.lineBytes.take pos).sum

/-- `fd.readline()` followed by `np.genfromtxt` on the resulting string: the
tokens of the next line and the new cursor; at end-of-file `readline` returns
the empty string, which `genfromtxt` parses (with a warning) to an empty
1-d vector, and the cursor stays put. Note that for a line holding exactly
one integer `genfromtxt` returns a 0-d array: that case is well-defined here
at the parse level, but calling `len()` on it raises — see
`generate_from_disk_fill`. -/
def DiskFile.readline (f : DiskFile) (pos : Nat) : List Int × Nat :=
  match f.lines.get? pos with
  | some l => (l, pos + 1)
  | none => ([], pos)

/-- Python-level runtime error of the on-disk read loop: for a line holding a
single integer, `np.genfromtxt` returns a 0-d array and `len(line)` at
`lm_keras_generators.py` line 127 raises `TypeError` (`len() of unsized
object`), crashing the generator. -/
inductive PyError where
  | typeError : PyError
deriving DecidableEq

/-- The inner accumulation loop of `generate_from_disk` (lines 124-131): seek
to the file start if the cursor is strictly past `fsize`; read and parse a
line; if the line holds exactly one integer, `len()` on the 0-d parse raises
`TypeError` (modelled by the `length = 1` guard); skip the line if shorter
than `min_seq_len`; if longer than `max_seq_len`, overwrite position
`max_seq_len - 1` with 3; stop once `num_shifted_sentences` valid lines are
accumulated. The loop has no termination guarantee in the source, so the
embedding takes a fuel parameter: `none` when the fuel runs out, an
`Except` carrying either the raised error or the block and final cursor
otherwise. -/
def generate_from_disk_fill (f : DiskFile) (min_seq_len max_seq_len n : Nat) :
    Nat → Nat → List (List Int) → Nat →
      Option (Except PyError (List (List Int) × Nat))
  | 0, _, _, _ => none
  | fuel + 1, pos, acc, cnt =>
    let pos := if f.fsize < f.tell pos then 0 else pos
    let rd := f.readline pos
    if rd.1.length = 1 then some (Except.error PyError.typeError)
    else if rd.1.length < min_seq_len then
      generate_from_disk_fill f min_seq_len max_seq_len n fuel rd.2 acc cnt
    else
      let line := if max_seq_len < rd.1.length
        then rd.1.set (max_seq_len - 1) EOS_ID else rd.1
      if n ≤ cnt + 1 then some (Except.ok (acc ++ [line], rd.2))
      else generate_from_disk_fill f min_seq_len max_seq_len n fuel rd.2
        (acc ++ [line]) (cnt + 1)

/-- One iteration of the outer infinite loop of `generate_from_disk` (lines
120-145): accumulate a block of `n` valid lines, pad it to `max_seq_len` with
the configured `pad` value (`padding="post"`, `truncating="post"`), run the
shared windowing loop and yield; returns the batch and the new cursor, the
propagated runtime error, or `none` when the accumulation loop does not
finish within the fuel. -/
def generate_from_disk_next (f : DiskFile) (min_seq_len max_seq_len n skip_step : Nat)
    (pad : Int) (fuel pos : Nat) :
    Option (Except PyError ((List (List Int) × List (List Int)) × Nat)) :=
  match generate_from_disk_fill f min_seq_len max_seq_len n fuel pos [] 0 with
  | none => none
  | some (Except.error e) => some (Except.error e)
  | some (Except.ok (blk, pos')) =>
    some (Except.ok (windowBatch max_seq_len skip_step
      (blk.map (pad_sequences_row PadDir.post PadDir.post max_seq_len pad)), pos'))

/-- The `k`-th batch (0-indexed) of `generate_from_disk` starting from cursor
`pos`, together with the cursor after it; each block accumulation gets `fuel`
read attempts, and a runtime error of any earlier block propagates. -/
def generate_from_disk_nth (f : DiskFile) (min_seq_len max_seq_len n skip_step : Nat)
    (pad : Int) (fuel : Nat) :
    Nat → Nat → Option (Except PyError ((List (List Int) × List (List Int)) × Nat))
  | pos, 0 => generate_from_disk_next f min_seq_len max_seq_len n skip_step pad fuel pos
  | pos, k + 1 =>
    match generate_from_disk_fill f min_seq_len max_seq_len n fuel pos [] 0 with
    | none => none
    | some (Except.error e) => some (Except.error e)
    | some (Except.ok (_, pos')) =>
      generate_from_disk_nth f min_seq_len max_seq_len n skip_step pad fuel pos' k

/-- A row padded by `pad_sequences` keeps its content and gets post-padding
when it is no longer than `maxlen`. -/
theorem pad_post_of_le (maxlen : Nat) (v : Int) {u : List Int} (h : u.length ≤ maxlen) :
    pad_sequences_row PadDir.post PadDir.pre maxlen v u
      = u ++ List.replicate (maxlen - u.length) v := by
  simp [pad_sequences_row, Nat.sub_eq_zero_of_le h]

/-- Every output row of `pad_sequences` has exactly `maxlen` elements. -/
theorem length_pad_sequences_row (padding truncating : PadDir) (maxlen : Nat)
    (v : Int) (u : List Int) :
    (pad_sequences_row padding truncating maxlen v u).length = maxlen := by
  cases padding <;> cases truncating <;> simp [pad_sequences_row] <;> omega

/-- Reading a post-padded row inside the original content. -/
theorem getD_pad_post_lt {maxlen : Nat} {v : Int} {u : List Int} (h : u.length ≤ maxlen)
    {k : Nat} (hk : k < u.length) :
    (pad_sequences_row PadDir.post PadDir.pre maxlen v u).getD k 0 = u.getD k 0 := by
  rw [pad_post_of_le maxlen v h, List.getD_append _ _ _ _ hk]

/-- Reading a post-padded row inside the padding region yields the pad value. -/
theorem getD_pad_post_ge {maxlen : Nat} {v : Int} {u : List Int} (h : u.length ≤ maxlen)
    {k : Nat} (hk1 : u.length ≤ k) (hk2 : k < maxlen) :
    (pad_sequences_row PadDir.post PadDir.pre maxlen v u).getD k 0 = v := by
  rw [pad_post_of_le maxlen v h, List.getD_append_right _ _ _ _ hk1]
  have hlt : k - u.length < maxlen - u.length := by omega
  rw [List.getD_eq_getElem _ _ (by simpa using hlt)]
  simp

/-- Indexing into a dropped list. -/
theorem getD_drop_eq (l : List Int) (n k : Nat) :
    (l.drop n).getD k 0 = l.getD (n + k) 0 := by
  simp [List.getD_eq_getD_get?, List.get?_eq_getElem?, List.getElem?_drop]

/-- Zipping two flatMaps whose chunks agree in length chunks them pairwise. -/
theorem zip_flatMap_of_length_eq {α β : Type} (ws : List α) (f g : α → List β)
    (h : ∀ a ∈ ws, (f a).length = (g a).length) :
    (ws.flatMap f).zip (ws.flatMap g) = ws.flatMap (fun a => (f a).zip (g a)) := by
  induction ws with
  | nil => simp
  | cons a ws ih =>
    simp only [List.flatMap_cons]
    rw [List.zip_append (h a (List.mem_cons_self a ws)),
      ih (fun b hb => h b (List.mem_cons_of_mem a hb))]

/-- Length of a flatMap of equal-length chunks. -/
theorem length_flatMap_const {α β : Type} (ws : List α) (f : α → List β) (c : Nat)
    (h : ∀ a ∈ ws, (f a).length = c) :
    (ws.flatMap f).length = ws.length * c := by
  induction ws with
  | nil => simp
  | cons a ws ih =>
    simp only [List.flatMap_cons, List.length_append, List.length_cons,
      h a (List.mem_cons_self a ws),
      ih (fun b hb => h b (List.mem_cons_of_mem a hb)), Nat.succ_mul]
    omega

/-- The row-paired form of a windowed batch: the zip of the emitted `x` and
`y` lists pairs, for each window and block row, the re-padded slice with the
re-padded slice-minus-first-column. -/
theorem windowBatch_zip (max_seq_len skip_step : Nat) (block : List (List Int)) :
    (windowBatch max_seq_len skip_step block).1.zip
        (windowBatch max_seq_len skip_step block).2
      = (List.range (max_seq_len / skip_step)).flatMap (fun w => block.map (fun r =>
          (pad_sequences_row PadDir.post PadDir.pre max_seq_len 1
            (r.drop (w * skip_step)),
           pad_sequences_row PadDir.post PadDir.pre max_seq_len 1
            ((r.drop (w * skip_step)).drop 1)))) := by
  unfold windowBatch
  simp only [List.map_flatMap, List.map_map]
  rw [zip_flatMap_of_length_eq _ _ _ (by intro a _; simp)]
  simp only [Function.comp_def, List.zip_map']

/-- Row counts of a windowed batch: `num_sliding_windows * block row count`
for both `x` and `y`. -/
theorem windowBatch_length (max_seq_len skip_step : Nat) (block : List (List Int)) :
    (windowBatch max_seq_len skip_step block).1.length
        = (max_seq_len / skip_step) * block.length ∧
    (windowBatch max_seq_len skip_step block).2.length
        = (max_seq_len / skip_step) * block.length := by
  unfold windowBatch
  constructor <;>
  · simp only [List.length_map]
    rw [length_flatMap_const _ _ block.length (by intro a _; simp)]
    simp

/-- The spec's row-level shift property for one `(x_i, y_i)` pair of a batch:
there is a pre-repadding window-row length `len` such that `y_i[k] = x_i[k+1]`
wherever column `k+1` of the un-repadded window row exists, and `y_i[k]` is
the reserved pad id 1 at every later column. -/
def shiftPairProp (max_seq_len : Nat) (pr : List Int × List Int) : Prop :=
  ∃ len, len ≤ max_seq_len ∧
    (∀ k, k + 1 < len → pr.2.getD k 0 = pr.1.getD (k + 1) 0) ∧
    (∀ k, len ≤ k + 1 → k < max_seq_len → pr.2.getD k 0 = 1)

/-- Core of claim C1: every row pair of a windowed batch over a block of
`max_seq_len`-wide rows satisfies the shift property. -/
theorem windowBatch_shiftPair (max_seq_len skip_step : Nat) (block : List (List Int))
    (hb : ∀ r ∈ block, r.length = max_seq_len) :
    ∀ pr ∈ (windowBatch max_seq_len skip_step block).1.zip
        (windowBatch max_seq_len skip_step block).2,
      shiftPairProp max_seq_len pr := by
  intro pr hpr
  rw [windowBatch_zip] at hpr
  rcases List.mem_flatMap.1 hpr with ⟨w, _, hpr2⟩
  rcases List.mem_map.1 hpr2 with ⟨r, hr, rfl⟩
  have hrl : r.length = max_seq_len := hb r hr
  have e1 : (r.drop (w * skip_step)).length = r.length - w * skip_step :=
    List.length_drop _ _
  have e2 : ((r.drop (w * skip_step)).drop 1).length
      = (r.drop (w * skip_step)).length - 1 := List.length_drop _ _
  have hu : (r.drop (w * skip_step)).length ≤ max_seq_len := by omega
  have hu1 : ((r.drop (w * skip_step)).drop 1).length ≤ max_seq_len := by omega
  refine ⟨(r.drop (w * skip_step)).length, hu, ?_, ?_⟩
  · intro k hk
    have hk' : k < ((r.drop (w * skip_step)).drop 1).length := by omega
    rw [getD_pad_post_lt hu1 hk', getD_pad_post_lt hu hk, getD_drop_eq,
      Nat.add_comm 1 k]
  · intro k hk1 hk2
    have hk' : ((r.drop (w * skip_step)).drop 1).length ≤ k := by omega
    exact getD_pad_post_ge hu1 hk' hk2

/-- C1: For every batch `(x, y)` emitted by the generator (either strategy)
and for every row index `i`, row `y_i` equals row `x_i` shifted left by one
column and post-padded: `y_i[k] = x_i[k+1]` for every `k` where column `k+1`
of the un-repadded window row exists, and `y_i[k]` equals the pad id 1
otherwise. Rows are paired positionally via `zip` (and `x` and `y` have
equally many rows). The in-memory part assumes the Padded Sequence invariant:
every table row is `max_seq_len` wide. -/
theorem C1_target_is_shifted_input :
    (∀ g : KerasLMSentenceLevelBatchGenerator,
      (∀ r ∈ g.x_sequences, r.length = g.max_seq_len) →
      ((generate_slurped_step g).2.2).length = ((generate_slurped_step g).2.1).length ∧
      ∀ pr ∈ ((generate_slurped_step g).2.1).zip ((generate_slurped_step g).2.2),
        shiftPairProp g.max_seq_len pr) ∧
    (∀ (f : DiskFile) (min_seq_len max_seq_len n skip_step : Nat) (pad : Int)
      (fuel pos : Nat) (b : List (List Int) × List (List Int)) (pos' : Nat),
      generate_from_disk_next f min_seq_len max_seq_len n skip_step pad fuel pos
        = some (Except.ok (b, pos')) →
      b.2.length = b.1.length ∧
      ∀ pr ∈ b.1.zip b.2, shiftPairProp max_seq_len pr) := by
  constructor
  · intro g hg
    simp only [generate_slurped_step]
    constructor
    · rw [(windowBatch_length _ _ _).1, (windowBatch_length _ _ _).2]
    · refine windowBatch_shiftPair _ _ _ ?_
      intro r hr
      exact hg r (List.mem_of_mem_drop (List.mem_of_mem_take hr))
  · intro f min_seq_len max_seq_len n skip_step pad fuel pos b pos' hnext
    cases hfill : generate_from_disk_fill f min_seq_len max_seq_len n fuel pos [] 0 with
    | none => simp [generate_from_disk_next, hfill] at hnext
    | some eres =>
      cases eres with
      | error e => simp [generate_from_disk_next, hfill] at hnext
      | ok blkpos =>
        simp only [generate_from_disk_next, hfill, Option.some.injEq,
          Except.ok.injEq, Prod.mk.injEq] at hnext
        rcases hnext with ⟨hb, _⟩
        subst hb
        constructor
        · rw [(windowBatch_length _ _ _).1, (windowBatch_length _ _ _).2]
        · refine windowBatch_shiftPair _ _ _ ?_
          intro r hr
          rcases List.mem_map.1 hr with ⟨l, _, rfl⟩
          exact length_pad_sequences_row _ _ _ _ _

/-- Concrete instantiation of `C1_target_is_shifted_input`: a slurped batch
row pair and an on-disk batch row pair, both over the single sequence
`[5, 7]` with `max_seq_len = 2`, satisfy the shift property. -/
theorem C1_target_is_shifted_input_witness :
    shiftPairProp 2 ([5, 7], [7, 1]) ∧ shiftPairProp 2 ([7, 1], [1, 1]) :=
  ⟨(C1_target_is_shifted_input.1 ⟨[[5, 7]], 1, false, 2, 1, 1, 0, 1, 1⟩
      (by decide)).2 ([5, 7], [7, 1]) (by decide),
   (C1_target_is_shifted_input.2 ⟨[[5, 7]], [4]⟩ 2 2 1 1 9 1 0
      ([[5, 7], [7, 1]], [[7, 1], [1, 1]]) 1 (by decide)).2 ([7, 1], [1, 1])
      (by decide)⟩

/-- C2: For every constructed generator, the derived sizing quantities satisfy
exactly, in integer arithmetic: `get_num_sliding_windows() == max_seq_len //
skip_step`, `get_batch_size() == num_shifted_sentences *
get_num_sliding_windows()`, `get_epoch_size() == explicit_seq_len *
get_num_sliding_windows()`, and `get_steps_per_epoch() == get_epoch_size() //
get_batch_size()`. -/
theorem C2_sizing_formulas (g : KerasLMSentenceLevelBatchGenerator) :
    g.get_num_sliding_windows = g.max_seq_len / g.skip_step ∧
    g.get_batch_size = g.num_shifted_sentences * g.get_num_sliding_windows ∧
    g.get_epoch_size = g.explicit_seq_len * g.get_num_sliding_windows ∧
    g.get_steps_per_epoch = g.get_epoch_size / g.get_batch_size :=
  ⟨rfl, rfl, rfl, rfl⟩

/-- C4: Constructing the generator with `skip_step > max_seq_len` fails with a
`ConfigError` (in both strategies — `no_slurp` is arbitrary here and the check
precedes any use of it), and constructing with `skip_step == max_seq_len`
(for a positive sequence length) succeeds and yields
`get_num_sliding_windows() == 1`. -/
theorem C4_skip_step_check (x_sequences : List (List Int))
    (max_seq_len min_seq_len num_shifted_sentences : Nat) (pad : Int)
    (skip_step : Nat) (explicit_x_seq_len : Option Nat) (no_slurp : Bool) :
    (max_seq_len < skip_step →
      KerasLMSentenceLevelBatchGenerator.init x_sequences max_seq_len min_seq_len
          num_shifted_sentences pad skip_step explicit_x_seq_len no_slurp =
        Except.error (GenError.configError
          "Skip step needs to be greater than or equal to the max sequence length")) ∧
    (skip_step = max_seq_len → 0 < max_seq_len →
      Except.map KerasLMSentenceLevelBatchGenerator.get_num_sliding_windows
          (KerasLMSentenceLevelBatchGenerator.init x_sequences max_seq_len min_seq_len
            num_shifted_sentences pad skip_step explicit_x_seq_len no_slurp) =
        Except.ok 1) := by
  constructor
  · intro h
    simp [KerasLMSentenceLevelBatchGenerator.init, h]
  · intro h hpos
    subst h
    simp [KerasLMSentenceLevelBatchGenerator.init, Except.map,
      KerasLMSentenceLevelBatchGenerator.get_num_sliding_windows,
      Nat.div_self hpos]

/-- Concrete instantiation of `C4_skip_step_check`: with `max_seq_len = 3`,
construction with `skip_step = 5` fails and construction with `skip_step = 3`
succeeds with a single sliding window. -/
theorem C4_skip_step_check_witness :
    KerasLMSentenceLevelBatchGenerator.init [] 3 1 2 1 5 none false =
      Except.error (GenError.configError
        "Skip step needs to be greater than or equal to the max sequence length") ∧
    Except.map KerasLMSentenceLevelBatchGenerator.get_num_sliding_windows
        (KerasLMSentenceLevelBatchGenerator.init [] 3 1 2 1 3 none true) =
      Except.ok 1 :=
  ⟨(C4_skip_step_check [] 3 1 2 1 5 none false).1 (by decide),
   (C4_skip_step_check [] 3 1 2 1 3 none true).2 (by decide) (by decide)⟩

/-- Every row of a windowed batch is re-padded to exactly `max_seq_len`
columns. -/
theorem windowBatch_row_length (max_seq_len skip_step : Nat) (block : List (List Int)) :
    (∀ r ∈ (windowBatch max_seq_len skip_step block).1, r.length = max_seq_len) ∧
    (∀ r ∈ (windowBatch max_seq_len skip_step block).2, r.length = max_seq_len) := by
  simp only [windowBatch]
  constructor <;>
  · intro r hr
    rcases List.mem_map.1 hr with ⟨u, _, rfl⟩
    exact length_pad_sequences_row _ _ _ _ _

/-- When the inner accumulation loop of `generate_from_disk` returns, the
block holds exactly `num_shifted_sentences` lines (given the entry invariant
that `cnt` lines are accumulated so far and the target is not yet reached). -/
theorem generate_from_disk_fill_length (f : DiskFile) (min_seq_len max_seq_len n : Nat) :
    ∀ (fuel pos : Nat) (acc : List (List Int)) (cnt : Nat) (blk : List (List Int))
      (pos' : Nat), cnt < n → acc.length = cnt →
      generate_from_disk_fill f min_seq_len max_seq_len n fuel pos acc cnt
        = some (Except.ok (blk, pos')) →
      blk.length = n := by
  intro fuel
  induction fuel with
  | zero => intro pos acc cnt blk pos' _ _ h; simp [generate_from_disk_fill] at h
  | succ fuel ih =>
    intro pos acc cnt blk pos' hcnt hacc h
    simp only [generate_from_disk_fill] at h
    split at h <;>
    · split at h
      · simp at h
      · split at h
        · exact ih _ _ _ _ _ hcnt hacc h
        · split at h
          · simp only [Option.some.injEq, Except.ok.injEq, Prod.mk.injEq] at h
            obtain ⟨h1, _⟩ := h
            subst h1
            simp only [List.length_append, hacc, List.length_cons, List.length_nil]
            omega
          · exact ih _ _ _ _ _ (by omega) (by simp [hacc]) h

/-- C3 as amended: every batch `(x, y)` emitted by the generator (either
strategy) consists of two 2-D arrays of identical shape
`(batch_size, max_seq_len)` with `batch_size = num_shifted_sentences *
(max_seq_len // skip_step)`, provided the table holds at least
`num_shifted_sentences` rows (in-memory; with a smaller table the numpy
slice at line 106 clamps the block and every batch has only
`len(x_sequences) * num_sliding_windows` rows — see the counterexample) and
`num_shifted_sentences > 0` (on-disk, for every batch the stream actually
returns). The in-memory part also assumes the constructed invariant
`explicit_seq_len = len(x_sequences)`. -/
theorem C3_batch_shape :
    (∀ g : KerasLMSentenceLevelBatchGenerator,
      g.explicit_seq_len = g.x_sequences.length →
      g.num_shifted_sentences ≤ g.x_sequences.length →
      ((generate_slurped_step g).2.1).length
          = g.num_shifted_sentences * (g.max_seq_len / g.skip_step) ∧
      ((generate_slurped_step g).2.2).length
          = g.num_shifted_sentences * (g.max_seq_len / g.skip_step) ∧
      (∀ r ∈ (generate_slurped_step g).2.1, r.length = g.max_seq_len) ∧
      (∀ r ∈ (generate_slurped_step g).2.2, r.length = g.max_seq_len)) ∧
    (∀ (f : DiskFile) (min_seq_len max_seq_len n skip_step : Nat) (pad : Int)
      (fuel pos : Nat) (b : List (List Int) × List (List Int)) (pos' : Nat),
      0 < n →
      generate_from_disk_next f min_seq_len max_seq_len n skip_step pad fuel pos
        = some (Except.ok (b, pos')) →
      b.1.length = n * (max_seq_len / skip_step) ∧
      b.2.length = n * (max_seq_len / skip_step) ∧
      (∀ r ∈ b.1, r.length = max_seq_len) ∧
      (∀ r ∈ b.2, r.length = max_seq_len)) := by
  constructor
  · intro g hL hn
    simp only [generate_slurped_step]
    have hblock : ((g.x_sequences.drop
        (if g.explicit_seq_len ≤ g.current_idx + g.num_shifted_sentences
          then 0 else g.current_idx)).take g.num_shifted_sentences).length
        = g.num_shifted_sentences := by
      rw [List.length_take, List.length_drop]
      split <;> omega
    refine ⟨?_, ?_, (windowBatch_row_length _ _ _).1, (windowBatch_row_length _ _ _).2⟩
    · rw [(windowBatch_length _ _ _).1, hblock, Nat.mul_comm]
    · rw [(windowBatch_length _ _ _).2, hblock, Nat.mul_comm]
  · intro f min_seq_len max_seq_len n skip_step pad fuel pos b pos' hn hnext
    cases hfill : generate_from_disk_fill f min_seq_len max_seq_len n fuel pos [] 0 with
    | none => simp [generate_from_disk_next, hfill] at hnext
    | some eres =>
      cases eres with
      | error e => simp [generate_from_disk_next, hfill] at hnext
      | ok blkpos =>
        simp only [generate_from_disk_next, hfill, Option.some.injEq,
          Except.ok.injEq, Prod.mk.injEq] at hnext
        rcases hnext with ⟨hb, _⟩
        subst hb
        have hblk : blkpos.1.length = n := by
          rcases blkpos with ⟨blk, q⟩
          exact generate_from_disk_fill_length f min_seq_len max_seq_len n fuel pos [] 0
            blk q hn rfl hfill
        refine ⟨?_, ?_, (windowBatch_row_length _ _ _).1, (windowBatch_row_length _ _ _).2⟩
        · rw [(windowBatch_length _ _ _).1, List.length_map, hblk, Nat.mul_comm]
        · rw [(windowBatch_length _ _ _).2, List.length_map, hblk, Nat.mul_comm]

/-- Concrete instantiation of `C3_batch_shape`: a slurped batch over a
2-sequence table and an on-disk batch over a 1-line file, both with
`max_seq_len = 2`, `skip_step = 1`, `num_shifted_sentences = 1`. -/
theorem C3_batch_shape_witness :
    (((generate_slurped_step ⟨[[1, 2], [3, 4]], 2, false, 2, 1, 1, 0, 1, 1⟩).2.1).length
        = 1 * (2 / 1) ∧
      ((generate_slurped_step ⟨[[1, 2], [3, 4]], 2, false, 2, 1, 1, 0, 1, 1⟩).2.2).length
        = 1 * (2 / 1) ∧
      (∀ r ∈ (generate_slurped_step ⟨[[1, 2], [3, 4]], 2, false, 2, 1, 1, 0, 1, 1⟩).2.1,
        r.length = 2) ∧
      (∀ r ∈ (generate_slurped_step ⟨[[1, 2], [3, 4]], 2, false, 2, 1, 1, 0, 1, 1⟩).2.2,
        r.length = 2)) ∧
    (([[5, 7], [7, 1]] : List (List Int)).length = 1 * (2 / 1) ∧
      ([[7, 1], [1, 1]] : List (List Int)).length = 1 * (2 / 1) ∧
      (∀ r ∈ ([[5, 7], [7, 1]] : List (List Int)), r.length = 2) ∧
      (∀ r ∈ ([[7, 1], [1, 1]] : List (List Int)), r.length = 2)) :=
  ⟨C3_batch_shape.1 ⟨[[1, 2], [3, 4]], 2, false, 2, 1, 1, 0, 1, 1⟩ (by decide) (by decide),
   C3_batch_shape.2 ⟨[[5, 7]], [4]⟩ 2 2 1 1 9 1 0 ([[5, 7], [7, 1]], [[7, 1], [1, 1]]) 1
     (by decide) (by decide)⟩

/-- The C3 claim as frozen is false when `num_shifted_sentences` exceeds the
table: with a freshly constructed in-memory generator over a single
2-token sequence (`explicit_seq_len = len(x_sequences) = 1`,
`current_idx = 0`) and `num_shifted_sentences = 5`, the numpy slice clamps
the block to the one available row and the first emitted batch has
`num_sliding_windows * 1 = 2` rows, not
`batch_size = 5 * (2 // 1) = 10`. -/
theorem C3_counterexample_clamped_block :
    (⟨[[1, 2]], 1, false, 2, 1, 5, 0, 1, 1⟩ :
        KerasLMSentenceLevelBatchGenerator).current_idx = 0 ∧
    (⟨[[1, 2]], 1, false, 2, 1, 5, 0, 1, 1⟩ :
        KerasLMSentenceLevelBatchGenerator).explicit_seq_len
      = (⟨[[1, 2]], 1, false, 2, 1, 5, 0, 1, 1⟩ :
          KerasLMSentenceLevelBatchGenerator).x_sequences.length ∧
    ((generate_slurped_step
        (⟨[[1, 2]], 1, false, 2, 1, 5, 0, 1, 1⟩ :
          KerasLMSentenceLevelBatchGenerator)).2.1).length
      ≠ (⟨[[1, 2]], 1, false, 2, 1, 5, 0, 1, 1⟩ :
          KerasLMSentenceLevelBatchGenerator).get_batch_size := by
  decide

/-- Indexing a flatMap of per-window block images: row `i * block.length + j`
is the image of block row `j` under window `i`. -/
theorem getD_flatMap_range (block : List (List Int)) :
    ∀ (i nw : Nat) (f : Nat → List Int → List Int) (j : Nat),
      i < nw → j < block.length →
      ((List.range nw).flatMap (fun w => block.map (f w))).getD
          (i * block.length + j) []
        = f i (block.getD j []) := by
  intro i
  induction i with
  | zero =>
    intro nw f j hi hj
    cases nw with
    | zero => omega
    | succ m =>
      rw [List.range_succ_eq_map]
      simp only [List.flatMap_cons]
      rw [Nat.zero_mul, Nat.zero_add, List.getD_append _ _ _ _ (by simpa using hj)]
      rw [List.getD_eq_getElem _ _ (by simpa using hj), List.getElem_map,
        List.getD_eq_getElem _ _ hj]
  | succ i ihi =>
    intro nw f j hi hj
    cases nw with
    | zero => omega
    | succ m =>
      rw [List.range_succ_eq_map]
      simp only [List.flatMap_cons, List.flatMap_map]
      rw [List.getD_append_right _ _ _ _
        (by simp only [List.length_map, Nat.succ_mul]; omega)]
      have harith : (i + 1) * block.length + j - (block.map (f 0)).length
          = i * block.length + j := by
        simp only [List.length_map, Nat.succ_mul]
        omega
      rw [harith]
      exact ihi m (fun w => f (w + 1)) j (by omega) hj

/-- In a windowed batch over `max_seq_len`-wide rows, every cell of the
re-padded region (columns past the un-repadded window-row length) holds the
literal value 1, in both the `x` and the `y` array. -/
theorem windowBatch_pad_region (max_seq_len skip_step : Nat) (block : List (List Int))
    (hb : ∀ r ∈ block, r.length = max_seq_len) (w j : Nat)
    (hw : w < max_seq_len / skip_step) (hj : j < block.length) :
    (∀ k, max_seq_len - w * skip_step ≤ k → k < max_seq_len →
      (((windowBatch max_seq_len skip_step block).1).getD
        (w * block.length + j) []).getD k 0 = 1) ∧
    (∀ k, max_seq_len - w * skip_step - 1 ≤ k → k < max_seq_len →
      (((windowBatch max_seq_len skip_step block).2).getD
        (w * block.length + j) []).getD k 0 = 1) := by
  have hx : (windowBatch max_seq_len skip_step block).1
      = (List.range (max_seq_len / skip_step)).flatMap (fun w => block.map (fun r =>
          pad_sequences_row PadDir.post PadDir.pre max_seq_len 1
            (r.drop (w * skip_step)))) := by
    simp only [windowBatch, List.map_flatMap, List.map_map, Function.comp_def]
  have hy : (windowBatch max_seq_len skip_step block).2
      = (List.range (max_seq_len / skip_step)).flatMap (fun w => block.map (fun r =>
          pad_sequences_row PadDir.post PadDir.pre max_seq_len 1
            ((r.drop (w * skip_step)).drop 1))) := by
    simp only [windowBatch, List.map_flatMap, List.map_map, Function.comp_def]
  have hmem : block.getD j [] ∈ block := by
    rw [List.getD_eq_getElem _ _ hj]
    exact List.getElem_mem hj
  have hrl : (block.getD j []).length = max_seq_len := hb _ hmem
  constructor
  · intro k hk1 hk2
    rw [hx, getD_flatMap_range block w (max_seq_len / skip_step)
      (fun w r => pad_sequences_row PadDir.post PadDir.pre max_seq_len 1
        (r.drop (w * skip_step))) j hw hj]
    refine getD_pad_post_ge ?_ ?_ hk2
    · rw [List.length_drop]
      omega
    · rw [List.length_drop]
      omega
  · intro k hk1 hk2
    rw [hy, getD_flatMap_range block w (max_seq_len / skip_step)
      (fun w r => pad_sequences_row PadDir.post PadDir.pre max_seq_len 1
        ((r.drop (w * skip_step)).drop 1)) j hw hj]
    refine getD_pad_post_ge ?_ ?_ hk2
    · rw [List.length_drop, List.length_drop]
      omega
    · rw [List.length_drop, List.length_drop]
      omega

/-- C10: In both strategies, the final re-padding of the accumulated `x` and
`y` window rows back to `max_seq_len` columns always uses the literal pad
value 1, regardless of the `pad_idx_or_symbol` the generator was constructed
with (the slurped emission is fully independent of that field); only the
on-disk block pre-padding uses the configured `pad_idx_or_symbol`. Hence for
every configuration with `pad_idx_or_symbol ≠ 1`, the re-padded cells of
emitted batches hold 1, not the configured pad id. -/
theorem C10_final_repad_literal_one :
    (∀ (g : KerasLMSentenceLevelBatchGenerator) (w j : Nat),
      (∀ r ∈ g.x_sequences, r.length = g.max_seq_len) →
      g.explicit_seq_len = g.x_sequences.length →
      g.num_shifted_sentences ≤ g.x_sequences.length →
      w < g.max_seq_len / g.skip_step → j < g.num_shifted_sentences →
      ∀ k, g.max_seq_len - w * g.skip_step ≤ k → k < g.max_seq_len →
        (((generate_slurped_step g).2.1).getD
          (w * g.num_shifted_sentences + j) []).getD k 0 = 1 ∧
        (((generate_slurped_step g).2.2).getD
          (w * g.num_shifted_sentences + j) []).getD k 0 = 1 ∧
        ∀ p : Int, p ≠ 1 →
          (((generate_slurped_step g).2.1).getD
            (w * g.num_shifted_sentences + j) []).getD k 0 ≠ p) ∧
    (∀ (g : KerasLMSentenceLevelBatchGenerator) (p : Int),
      (generate_slurped_step { g with pad_idx_or_symbol := p }).2
        = (generate_slurped_step g).2) ∧
    (∀ (f : DiskFile) (min_seq_len max_seq_len n skip_step : Nat) (p : Int)
      (fuel pos : Nat) (b : List (List Int) × List (List Int)) (pos' w j : Nat),
      0 < n →
      generate_from_disk_next f min_seq_len max_seq_len n skip_step p fuel pos
        = some (Except.ok (b, pos')) →
      w < max_seq_len / skip_step → j < n →
      ∀ k, max_seq_len - w * skip_step ≤ k → k < max_seq_len →
        (b.1.getD (w * n + j) []).getD k 0 = 1) ∧
    (∀ (max_seq_len : Nat) (p : Int) (l : List Int) (k : Nat),
      l.length ≤ k → k < max_seq_len →
      (pad_sequences_row PadDir.post PadDir.post max_seq_len p l).getD k 0 = p) := by
  refine ⟨?_, ?_, ?_, ?_⟩
  · intro g w j hrows hL hn hw hj k hk1 hk2
    simp only [generate_slurped_step]
    set cur := if g.explicit_seq_len ≤ g.current_idx + g.num_shifted_sentences
      then 0 else g.current_idx with hcur
    set block := (g.x_sequences.drop cur).take g.num_shifted_sentences with hblockdef
    have hb : ∀ r ∈ block, r.length = g.max_seq_len := by
      intro r hr
      exact hrows r (List.mem_of_mem_drop (List.mem_of_mem_take hr))
    have hblock : block.length = g.num_shifted_sentences := by
      rw [hblockdef, List.length_take, List.length_drop, hcur]
      split <;> omega
    have hj' : j < block.length := by omega
    have hreg := windowBatch_pad_region g.max_seq_len g.skip_step block hb w j hw hj'
    rw [hblock] at hreg
    refine ⟨hreg.1 k hk1 hk2, hreg.2 k (by omega) hk2, ?_⟩
    intro p hp
    rw [hreg.1 k hk1 hk2]
    exact fun h => hp h.symm
  · intro g p
    rfl
  · intro f min_seq_len max_seq_len n skip_step p fuel pos b pos' w j hn hnext hw hj
    cases hfill : generate_from_disk_fill f min_seq_len max_seq_len n fuel pos [] 0 with
    | none => simp [generate_from_disk_next, hfill] at hnext
    | some eres =>
      cases eres with
      | error e => simp [generate_from_disk_next, hfill] at hnext
      | ok blkpos =>
        simp only [generate_from_disk_next, hfill, Option.some.injEq,
          Except.ok.injEq, Prod.mk.injEq] at hnext
        rcases hnext with ⟨hb, _⟩
        subst hb
        have hblk : blkpos.1.length = n := by
          rcases blkpos with ⟨blk, q⟩
          exact generate_from_disk_fill_length f min_seq_len max_seq_len n fuel pos [] 0
            blk q hn rfl hfill
        have hb' : ∀ r ∈ blkpos.1.map
            (pad_sequences_row PadDir.post PadDir.post max_seq_len p),
            r.length = max_seq_len := by
          intro r hr
          rcases List.mem_map.1 hr with ⟨l, _, rfl⟩
          exact length_pad_sequences_row _ _ _ _ _
        have hj' : j < (blkpos.1.map
            (pad_sequences_row PadDir.post PadDir.post max_seq_len p)).length := by
          rw [List.length_map, hblk]
          omega
        have hreg := windowBatch_pad_region max_seq_len skip_step _ hb' w j hw hj'
        rw [List.length_map, hblk] at hreg
        intro k hk1 hk2
        exact hreg.1 k hk1 hk2
  · intro max_seq_len p l k hk1 hk2
    have hlm : l.length ≤ max_seq_len := by omega
    have hpad : pad_sequences_row PadDir.post PadDir.post max_seq_len p l
        = l ++ List.replicate (max_seq_len - l.length) p := by
      simp [pad_sequences_row, List.take_of_length_le hlm]
    rw [hpad, List.getD_append_right _ _ _ _ hk1]
    have hlt : k - l.length < max_seq_len - l.length := by omega
    rw [List.getD_eq_getElem _ _ (by simpa using hlt)]
    simp

/-- Concrete instantiation of `C10_final_repad_literal_one`: with
`pad_idx_or_symbol = 7` (slurped) and `pad = 9` (disk), the re-padded cells
of emitted rows hold 1 (and differ from the configured pad id), the slurped
emission ignores the configured pad entirely, and the on-disk block
pre-padding cell holds the configured 9. -/
theorem C10_final_repad_literal_one_witness :
    ((((generate_slurped_step ⟨[[1, 2], [3, 4]], 2, false, 2, 1, 1, 0, 1, 7⟩).2.1).getD
        (1 * 1 + 0) []).getD 1 0 = 1 ∧
      (((generate_slurped_step ⟨[[1, 2], [3, 4]], 2, false, 2, 1, 1, 0, 1, 7⟩).2.2).getD
        (1 * 1 + 0) []).getD 1 0 = 1 ∧
      ∀ p : Int, p ≠ 1 →
        (((generate_slurped_step ⟨[[1, 2], [3, 4]], 2, false, 2, 1, 1, 0, 1, 7⟩).2.1).getD
          (1 * 1 + 0) []).getD 1 0 ≠ p) ∧
    (generate_slurped_step
        { (⟨[[1, 2], [3, 4]], 2, false, 2, 1, 1, 0, 1, 7⟩ :
            KerasLMSentenceLevelBatchGenerator) with pad_idx_or_symbol := (5 : Int) }).2
      = (generate_slurped_step ⟨[[1, 2], [3, 4]], 2, false, 2, 1, 1, 0, 1, 7⟩).2 ∧
    ((([[5, 7], [7, 1]] : List (List Int)).getD (1 * 1 + 0) []).getD 1 0 = 1) ∧
    (pad_sequences_row PadDir.post PadDir.post 3 9 [5]).getD 2 0 = 9 :=
  ⟨C10_final_repad_literal_one.1 ⟨[[1, 2], [3, 4]], 2, false, 2, 1, 1, 0, 1, 7⟩ 1 0
      (by decide) (by decide) (by decide) (by decide) (by decide) 1 (by decide) (by decide),
   C10_final_repad_literal_one.2.1 ⟨[[1, 2], [3, 4]], 2, false, 2, 1, 1, 0, 1, 7⟩ 5,
   C10_final_repad_literal_one.2.2.1 ⟨[[5, 7]], [4]⟩ 1 2 1 1 9 1 0
      ([[5, 7], [7, 1]], [[7, 1], [1, 1]]) 1 1 0 (by decide) (by decide) (by decide)
      (by decide) 1 (by decide) (by decide),
   C10_final_repad_literal_one.2.2.2 3 9 [5] 2 (by decide) (by decide)⟩

/-- Iterating the slurped generator never changes the configuration fields;
only `current_idx` evolves. -/
theorem generate_slurped_iter_fields (g : KerasLMSentenceLevelBatchGenerator) (k : Nat) :
    (generate_slurped_iter g k).x_sequences = g.x_sequences ∧
    (generate_slurped_iter g k).explicit_seq_len = g.explicit_seq_len ∧
    (generate_slurped_iter g k).num_shifted_sentences = g.num_shifted_sentences ∧
    (generate_slurped_iter g k).max_seq_len = g.max_seq_len ∧
    (generate_slurped_iter g k).skip_step = g.skip_step := by
  induction k with
  | zero => exact ⟨rfl, rfl, rfl, rfl, rfl⟩
  | succ k ih =>
    simp only [generate_slurped_iter, generate_slurped_step]
    exact ih

/-- Cursor after one more emission, written on the raw step: used for both
the wrap analysis and the invariant. -/
theorem generate_slurped_iter_succ_cur (g : KerasLMSentenceLevelBatchGenerator) (k : Nat) :
    (generate_slurped_iter g (k + 1)).current_idx
      = (if (generate_slurped_iter g k).explicit_seq_len
            ≤ (generate_slurped_iter g k).current_idx
              + (generate_slurped_iter g k).num_shifted_sentences
          then 0 else (generate_slurped_iter g k).current_idx)
        + (generate_slurped_iter g k).num_shifted_sentences := by
  simp only [generate_slurped_iter, generate_slurped_step]

/-- Closed form of the cursor while no wrap has occurred: after `k` emissions
the cursor sits at `k * num_shifted_sentences`, provided that offset is still
inside the table. -/
theorem generate_slurped_cur_of_lt (g : KerasLMSentenceLevelBatchGenerator)
    (h0 : g.current_idx = 0) :
    ∀ k, k * g.num_shifted_sentences < g.explicit_seq_len →
      (generate_slurped_iter g k).current_idx = k * g.num_shifted_sentences := by
  intro k
  induction k with
  | zero =>
    intro _
    simpa [generate_slurped_iter] using h0
  | succ k ih =>
    intro hk
    have hmul : (k + 1) * g.num_shifted_sentences
        = k * g.num_shifted_sentences + g.num_shifted_sentences := by ring
    have hk' : k * g.num_shifted_sentences < g.explicit_seq_len := by omega
    have hcur := ih hk'
    have hf := generate_slurped_iter_fields g k
    rw [generate_slurped_iter_succ_cur, hf.2.1, hf.2.2.1, hcur, if_neg (by omega)]
    omega

/-- Arithmetic fact: `ceil(L / n) * n` covers `L`. -/
theorem ceil_div_mul_ge (L n : Nat) (hn : 0 < n) : L ≤ ((L + n - 1) / n) * n := by
  have hmod := Nat.div_add_mod (L + n - 1) n
  have hlt : (L + n - 1) % n < n := Nat.mod_lt _ hn
  rw [Nat.mul_comm]
  omega

/-- Arithmetic fact: below `ceil(L / n)` blocks, the consumed prefix is still
strictly inside `L`. -/
theorem lt_ceil_div_mul_lt (L n j : Nat) (hn : 0 < n)
    (hj : j < (L + n - 1) / n) : j * n < L := by
  have h2 : (j + 1) * n ≤ L + n - 1 := (Nat.le_div_iff_mul_le hn).1 hj
  have hmul : (j + 1) * n = j * n + n := by ring
  omega

/-- C6 as amended: in the in-memory strategy, the cursor invariant
`current_idx ∈ [0, explicit_seq_len)` holds after every batch emission for
every reachable state, provided `num_shifted_sentences < explicit_seq_len`
(a block strictly smaller than the table). Without that proviso the claim is
false — see the counterexample. -/
theorem C6_amended_cursor_invariant (g : KerasLMSentenceLevelBatchGenerator)
    (h0 : g.current_idx = 0)
    (hn : g.num_shifted_sentences < g.explicit_seq_len) (k : Nat) :
    (generate_slurped_iter g k).current_idx < g.explicit_seq_len := by
  cases k with
  | zero =>
    simp only [generate_slurped_iter]
    omega
  | succ k =>
    rw [generate_slurped_iter_succ_cur]
    have hf := generate_slurped_iter_fields g k
    rw [hf.2.1, hf.2.2.1]
    split <;> omega

/-- The C6 claim as frozen is false for every configuration with
`num_shifted_sentences ≥ explicit_seq_len`: with a one-sentence table and
`num_shifted_sentences = 1`, starting from the constructed state
(`current_idx = 0`), the state after the first emission has `current_idx = 1
∉ [0, 1)`. -/
theorem C6_counterexample_cursor_escapes :
    (⟨[[5, 5]], 1, false, 2, 1, 1, 0, 1, 1⟩ :
        KerasLMSentenceLevelBatchGenerator).current_idx = 0 ∧
    ¬ ((generate_slurped_iter
          (⟨[[5, 5]], 1, false, 2, 1, 1, 0, 1, 1⟩ :
            KerasLMSentenceLevelBatchGenerator) 1).current_idx
        < (⟨[[5, 5]], 1, false, 2, 1, 1, 0, 1, 1⟩ :
            KerasLMSentenceLevelBatchGenerator).explicit_seq_len) := by
  decide

/-- Concrete instantiation of `C6_amended_cursor_invariant`: a three-sentence
table with one-sentence blocks, checked after five emissions. -/
theorem C6_amended_cursor_invariant_witness :
    (generate_slurped_iter
        (⟨[[1], [2], [3]], 3, false, 1, 1, 1, 0, 1, 1⟩ :
          KerasLMSentenceLevelBatchGenerator) 5).current_idx
      < (⟨[[1], [2], [3]], 3, false, 1, 1, 1, 0, 1, 1⟩ :
          KerasLMSentenceLevelBatchGenerator).explicit_seq_len :=
  C6_amended_cursor_invariant ⟨[[1], [2], [3]], 3, false, 1, 1, 1, 0, 1, 1⟩
    rfl (by decide) 5

/-- C7 as amended: starting from a freshly constructed in-memory generator,
after consuming exactly `ceil(explicit_seq_len / num_shifted_sentences)`
batches the cursor equals `num_shifted_sentences`, not 0: the wrap resets
`current_idx` to 0 at the top of that final emission, before the block is
taken, and the emission then advances it. (`current_idx` is never 0
immediately after an emission, since every emission ends with
`current_idx += num_shifted_sentences`.) -/
theorem C7_amended_cursor_after_wrap (g : KerasLMSentenceLevelBatchGenerator)
    (h0 : g.current_idx = 0) (hn : 0 < g.num_shifted_sentences)
    (hL : 0 < g.explicit_seq_len) :
    (generate_slurped_iter g
        ((g.explicit_seq_len + g.num_shifted_sentences - 1)
          / g.num_shifted_sentences)).current_idx
      = g.num_shifted_sentences := by
  have hm1 : 1 ≤ (g.explicit_seq_len + g.num_shifted_sentences - 1)
      / g.num_shifted_sentences :=
    (Nat.le_div_iff_mul_le hn).2 (by omega)
  have hmdec : (g.explicit_seq_len + g.num_shifted_sentences - 1)
        / g.num_shifted_sentences
      = ((g.explicit_seq_len + g.num_shifted_sentences - 1)
          / g.num_shifted_sentences - 1) + 1 := by
    omega
  have hmul : ((g.explicit_seq_len + g.num_shifted_sentences - 1)
          / g.num_shifted_sentences) * g.num_shifted_sentences
      = ((g.explicit_seq_len + g.num_shifted_sentences - 1)
          / g.num_shifted_sentences - 1) * g.num_shifted_sentences
        + g.num_shifted_sentences := by
    conv_lhs => rw [hmdec]
    ring
  have hge := ceil_div_mul_ge g.explicit_seq_len g.num_shifted_sentences hn
  have hcur := generate_slurped_cur_of_lt g h0
    ((g.explicit_seq_len + g.num_shifted_sentences - 1) / g.num_shifted_sentences - 1)
    (lt_ceil_div_mul_lt g.explicit_seq_len g.num_shifted_sentences _ hn (by omega))
  have hf := generate_slurped_iter_fields g
    ((g.explicit_seq_len + g.num_shifted_sentences - 1) / g.num_shifted_sentences - 1)
  rw [hmdec, generate_slurped_iter_succ_cur, hf.2.1, hf.2.2.1, hcur,
    if_pos (by omega)]
  omega

/-- The C7 claim as frozen is false: with a fresh two-sentence in-memory
generator and `num_shifted_sentences = 1`, after
`ceil(explicit_seq_len / num_shifted_sentences) = (2 + 1 - 1) / 1 = 2`
batches the cursor is 1, not 0. -/
theorem C7_counterexample_cursor_not_zero :
    (⟨[[5, 5], [6, 6]], 2, false, 2, 1, 1, 0, 1, 1⟩ :
        KerasLMSentenceLevelBatchGenerator).current_idx = 0 ∧
    (generate_slurped_iter
        (⟨[[5, 5], [6, 6]], 2, false, 2, 1, 1, 0, 1, 1⟩ :
          KerasLMSentenceLevelBatchGenerator) ((2 + 1 - 1) / 1)).current_idx ≠ 0 := by
  decide

/-- Concrete instantiation of `C7_amended_cursor_after_wrap` on the same
two-sentence generator: after `ceil(2 / 1) = 2` batches the cursor equals
`num_shifted_sentences = 1`. -/
theorem C7_amended_cursor_after_wrap_witness :
    (generate_slurped_iter
        (⟨[[5, 5], [6, 6]], 2, false, 2, 1, 1, 0, 1, 1⟩ :
          KerasLMSentenceLevelBatchGenerator) ((2 + 1 - 1) / 1)).current_idx = 1 :=
  C7_amended_cursor_after_wrap ⟨[[5, 5], [6, 6]], 2, false, 2, 1, 1, 0, 1, 1⟩
    rfl (by decide) (by decide)

/-- The byte cursor of the modelled text stream never exceeds the file size:
a prefix of the line sizes cannot out-sum the whole list. Consequently the
source's wrap guard `fd.tell() > fsize` can never be true. -/
theorem disk_tell_le_fsize (f : DiskFile) (pos : Nat) : f.tell pos ≤ f.fsize := by
  unfold DiskFile.tell DiskFile.fsize
  conv_rhs => rw [← List.take_append_drop pos f.lineBytes]
  rw [List.sum_append]
  omega

/-- Once the read cursor is at or past end-of-file, the accumulation loop of
`generate_from_disk` makes no progress: the wrap guard does not fire (the
byte cursor never exceeds `fsize`), `readline` returns the empty string,
which parses to a length-0 vector, shorter than any positive `min_seq_len`,
and the loop retries forever — no amount of fuel produces a block. -/
theorem disk_fill_stuck_at_eof (f : DiskFile) (min_seq_len max_seq_len n : Nat)
    (hmin : 0 < min_seq_len) (pos : Nat) (hpos : f.lines.length ≤ pos) :
    ∀ (fuel : Nat) (acc : List (List Int)) (cnt : Nat),
      generate_from_disk_fill f min_seq_len max_seq_len n fuel pos acc cnt = none := by
  intro fuel
  induction fuel with
  | zero => intro acc cnt; rfl
  | succ fuel ih =>
    intro acc cnt
    have hcond : ¬ f.fsize < f.tell pos := by
      have := disk_tell_le_fsize f pos
      omega
    have hrl : f.readline pos = ([], pos) := by
      unfold DiskFile.readline
      rw [List.get?_eq_none.2 hpos]
    simp only [generate_from_disk_fill, hcond, if_false, hrl, List.length_nil]
    rw [if_neg (by omega), if_pos hmin]
    exact ih acc cnt

/-- C8 evidence: the wrap guard `fd.tell() > fsize` of `generate_from_disk`
can never be true (byte positions are bounded by the file size), so the
generator never seeks back to the start of the file; concretely, for a
one-line corpus `"5 6 7 8"` with `min_seq_len = 1` and
`num_shifted_sentences = 2` — where filling the first block requires wrapping
— no amount of fuel makes the next-batch request return: the stream is stuck
at end-of-file, contradicting the claim that every request terminates and
yields a batch. -/
theorem C8_eof_wrap_never_fires :
    (∀ (f : DiskFile) (pos : Nat), f.tell pos ≤ f.fsize) ∧
    (∀ fuel : Nat,
      generate_from_disk_next ⟨[[5, 6, 7, 8]], [8]⟩ 1 10 2 5 1 fuel 0 = none) := by
  constructor
  · exact disk_tell_le_fsize
  · intro fuel
    have hf : generate_from_disk_fill ⟨[[5, 6, 7, 8]], [8]⟩ 1 10 2 fuel 0 [] 0
        = none := by
      cases fuel with
      | zero => rfl
      | succ fuel =>
        exact disk_fill_stuck_at_eof ⟨[[5, 6, 7, 8]], [8]⟩ 1 10 2 (by decide) 1
          (by decide) fuel [[5, 6, 7, 8]] 1
    simp [generate_from_disk_next, hf]

/-- For a row no longer than `maxlen`, the two truncation modes of
`pad_sequences` coincide (no truncation happens). -/
theorem pad_post_trunc_irrel (maxlen : Nat) (v : Int) {l : List Int}
    (h : l.length ≤ maxlen) :
    pad_sequences_row PadDir.post PadDir.pre maxlen v l
      = pad_sequences_row PadDir.post PadDir.post maxlen v l := by
  simp [pad_sequences_row, Nat.sub_eq_zero_of_le h, List.take_of_length_le h]

/-- When every file line is valid (length within `[min_seq_len, max_seq_len]`
and not a single token, so `len()` on the parse is well-defined) and `m` more
lines are needed and available, the accumulation loop returns exactly the
next `m` lines and advances the cursor by `m`. -/
theorem generate_from_disk_fill_ok (f : DiskFile) (min_seq_len max_seq_len n : Nat)
    (hv : ∀ l ∈ f.lines,
      min_seq_len ≤ l.length ∧ l.length ≤ max_seq_len ∧ l.length ≠ 1) :
    ∀ (m fuel pos : Nat) (acc : List (List Int)) (cnt : Nat),
      cnt + m = n → 0 < m → m ≤ fuel → pos + m ≤ f.lines.length →
      generate_from_disk_fill f min_seq_len max_seq_len n fuel pos acc cnt
        = some (Except.ok (acc ++ (f.lines.drop pos).take m, pos + m)) := by
  intro m
  induction m with
  | zero =>
    intro fuel pos acc cnt _ h0 _ _
    omega
  | succ m ih =>
    intro fuel pos acc cnt hcnt _ hfuel hpos
    obtain ⟨fu, rfl⟩ : ∃ fu, fuel = fu + 1 := ⟨fuel - 1, by omega⟩
    have hposlt : pos < f.lines.length := by omega
    have hrl : f.readline pos = (f.lines[pos], pos + 1) := by
      unfold DiskFile.readline
      rw [List.get?_eq_getElem?, List.getElem?_eq_getElem hposlt]
    have hcond : ¬ f.fsize < f.tell pos := by
      have := disk_tell_le_fsize f pos
      omega
    have hvl := hv _ (List.getElem_mem hposlt)
    have hc0 : ¬ (f.lines[pos].length = 1) := hvl.2.2
    have hc1 : ¬ (f.lines[pos].length < min_seq_len) := by omega
    have hc2 : ¬ (max_seq_len < f.lines[pos].length) := by omega
    by_cases hm0 : m = 0
    · subst hm0
      have hstop : n ≤ cnt + 1 := by omega
      simp only [generate_from_disk_fill, hcond, if_false, hrl, hc0, hc1, hc2, hstop,
        if_true, ite_false, ite_true]
      rw [List.drop_eq_getElem_cons hposlt, List.take_succ_cons, List.take_zero]
    · have hgo : ¬ n ≤ cnt + 1 := by omega
      simp only [generate_from_disk_fill, hcond, if_false, hrl, hc0, hc1, hc2, hgo,
        ite_false, ite_true]
      rw [ih fu (pos + 1) (acc ++ [f.lines[pos]]) (cnt + 1) (by omega) (by omega)
        (by omega) (by omega)]
      have hA : acc ++ [f.lines[pos]] ++ (f.lines.drop (pos + 1)).take m
          = acc ++ (f.lines.drop pos).take (m + 1) := by
        rw [List.append_assoc, List.drop_eq_getElem_cons hposlt, List.take_succ_cons]
        rfl
      have hP : pos + 1 + m = pos + (m + 1) := by omega
      rw [hA, hP]

/-- Over a fully valid file, the `k`-th on-disk batch starting at line
`j * n` is the windowed batch of the post-padded block of lines
`[(j+k)*n, (j+k+1)*n)`, and the cursor lands at `(j+k+1)*n`. -/
theorem generate_from_disk_nth_ok (lines : List (List Int)) (bytes : List Nat)
    (min_seq_len max_seq_len n skip_step : Nat) (p : Int) (fuel : Nat)
    (hv : ∀ l ∈ lines,
      min_seq_len ≤ l.length ∧ l.length ≤ max_seq_len ∧ l.length ≠ 1)
    (hn : 0 < n) (hfuel : n ≤ fuel) :
    ∀ (k j : Nat), (j + k + 1) * n ≤ lines.length →
      generate_from_disk_nth ⟨lines, bytes⟩ min_seq_len max_seq_len n skip_step p fuel
          (j * n) k
        = some (Except.ok (windowBatch max_seq_len skip_step
            (((lines.drop ((j + k) * n)).take n).map
              (pad_sequences_row PadDir.post PadDir.post max_seq_len p)),
          (j + k + 1) * n)) := by
  intro k
  induction k with
  | zero =>
    intro j hjk
    have hmul : (j + 0 + 1) * n = j * n + n := by ring
    have hfill := generate_from_disk_fill_ok ⟨lines, bytes⟩ min_seq_len max_seq_len n hv
      n fuel (j * n) [] 0 (by omega) hn hfuel
      (by show j * n + n ≤ lines.length; omega)
    simp only [generate_from_disk_nth, generate_from_disk_next, hfill, List.nil_append]
    have e1 : (j + 0) * n = j * n := by ring
    rw [e1, ← hmul]
  | succ k ih =>
    intro j hjk
    have hmulj : (j + 1) * n = j * n + n := by ring
    have hmono : (j + 1) * n ≤ (j + (k + 1) + 1) * n :=
      Nat.mul_le_mul_right n (by omega)
    have hfill := generate_from_disk_fill_ok ⟨lines, bytes⟩ min_seq_len max_seq_len n hv
      n fuel (j * n) [] 0 (by omega) hn hfuel
      (by show j * n + n ≤ lines.length; omega)
    simp only [generate_from_disk_nth, hfill]
    have hstep := ih (j + 1) (by
      have e : (j + 1 + k + 1) * n = (j + (k + 1) + 1) * n := by ring
      omega)
    have e1 : (j + 1 + k) * n = (j + (k + 1)) * n := by ring
    have e2 : (j + 1 + k + 1) * n = (j + (k + 1) + 1) * n := by ring
    rw [e1, e2, hmulj] at hstep
    exact hstep

/-- Before any wrap, the `k`-th slurped batch is the windowed batch of table
rows `[k*n, (k+1)*n)`. -/
theorem generate_slurped_nth_ok (g : KerasLMSentenceLevelBatchGenerator)
    (h0 : g.current_idx = 0) (k : Nat)
    (hk : (k + 1) * g.num_shifted_sentences < g.explicit_seq_len) :
    generate_slurped_nth g k
      = windowBatch g.max_seq_len g.skip_step
          ((g.x_sequences.drop (k * g.num_shifted_sentences)).take
            g.num_shifted_sentences) := by
  have hf := generate_slurped_iter_fields g k
  have hmul : (k + 1) * g.num_shifted_sentences
      = k * g.num_shifted_sentences + g.num_shifted_sentences := by ring
  have hcur := generate_slurped_cur_of_lt g h0 k (by omega)
  simp only [generate_slurped_nth, generate_slurped_step]
  rw [hf.1, hf.2.1, hf.2.2.1, hf.2.2.2.1, hf.2.2.2.2, hcur, if_neg (by omega)]

/-- C9 as amended: Given the same underlying sequences (the disk file's
parsed lines; in memory, the same lines post-padded to `max_seq_len` with
the shared pad id, per the Padded Sequence invariant) and the same
parameters `max_seq_len`, `min_seq_len`, `skip_step`,
`num_shifted_sentences` and pad id, the on-disk streaming strategy and the
in-memory strategy produce bit-identical `(x, y)` batches for every batch
index `k` of the first full pass, before either strategy wraps
(`(k+1) * num_shifted_sentences < number of lines`), provided every line is
valid (`min_seq_len ≤ length ≤ max_seq_len`) and no line holds exactly one
token (for such a line `np.genfromtxt` returns a 0-d array and `len()`
raises `TypeError`, crashing the disk strategy — see the counterexample),
with a positive block count and per-block read fuel of at least `n`. -/
theorem C9_strategies_bit_identical (lines : List (List Int)) (bytes : List Nat)
    (min_seq_len max_seq_len n skip_step : Nat) (p : Int) (fuel k : Nat)
    (hv : ∀ l ∈ lines,
      min_seq_len ≤ l.length ∧ l.length ≤ max_seq_len ∧ l.length ≠ 1)
    (hn : 0 < n) (hfuel : n ≤ fuel) (hk : (k + 1) * n < lines.length) :
    generate_from_disk_nth ⟨lines, bytes⟩ min_seq_len max_seq_len n skip_step p fuel 0 k
      = some (Except.ok (generate_slurped_nth
          ⟨lines.map (pad_sequences_row PadDir.post PadDir.pre max_seq_len p),
            lines.length, false, max_seq_len, min_seq_len, n, 0, skip_step, p⟩ k,
          (k + 1) * n)) := by
  have hD := generate_from_disk_nth_ok lines bytes min_seq_len max_seq_len n skip_step
    p fuel hv hn hfuel k 0 (by
      have e : (0 + k + 1) * n = (k + 1) * n := by ring
      omega)
  simp only [Nat.zero_mul, Nat.zero_add] at hD
  have hS := generate_slurped_nth_ok
    ⟨lines.map (pad_sequences_row PadDir.post PadDir.pre max_seq_len p),
      lines.length, false, max_seq_len, min_seq_len, n, 0, skip_step, p⟩ rfl k hk
  have hblocks : (((lines.map
        (pad_sequences_row PadDir.post PadDir.pre max_seq_len p)).drop (k * n)).take n)
      = ((lines.drop (k * n)).take n).map
          (pad_sequences_row PadDir.post PadDir.post max_seq_len p) := by
    rw [← List.map_drop, ← List.map_take]
    refine List.map_congr_left ?_
    intro l hl
    exact pad_post_trunc_irrel max_seq_len p
      ((hv l (List.mem_of_mem_drop (List.mem_of_mem_take hl))).2.1)
  rw [hD, hS, hblocks]

/-- Concrete instantiation of `C9_strategies_bit_identical`: a two-line file,
`max_seq_len = 2`, one-line blocks, first batch. -/
theorem C9_strategies_bit_identical_witness :
    generate_from_disk_nth ⟨[[5, 7], [6, 8]], [4, 4]⟩ 1 2 1 1 1 1 0 0
      = some (Except.ok (generate_slurped_nth
          ⟨[[5, 7], [6, 8]].map (pad_sequences_row PadDir.post PadDir.pre 2 1),
            2, false, 2, 1, 1, 0, 1, 1⟩ 0,
          (0 + 1) * 1)) :=
  C9_strategies_bit_identical [[5, 7], [6, 8]] [4, 4] 1 2 1 1 1 1 0
    (by decide) (by decide) (by decide) (by decide)

/-- The C9 claim as frozen is false on the program: with the same underlying
sequences `[[5], [6]]` and the same parameters (`min_seq_len = 1`,
`max_seq_len = 2`, `skip_step = 1`, `num_shifted_sentences = 1`, pad id 1,
well inside the first pass), the in-memory strategy emits a batch while the
on-disk strategy crashes before its first batch: the first line holds a
single integer, `np.genfromtxt` parses it to a 0-d array and `len(line)`
raises `TypeError`, so the two strategies do not produce bit-identical
batch streams. -/
theorem C9_counterexample_single_token_line :
    generate_from_disk_nth ⟨[[5], [6]], [2, 2]⟩ 1 2 1 1 1 9 0 0
      = some (Except.error PyError.typeError) ∧
    generate_slurped_nth
        ⟨[[5], [6]].map (pad_sequences_row PadDir.post PadDir.pre 2 1),
          2, false, 2, 1, 1, 0, 1, 1⟩ 0
      = ([[5, 1], [1, 1]], [[1, 1], [1, 1]]) := by
  decide

end LMScripts
